import Mathlib

/-!
Verification development for the DeepSpear AI backend
(FastAPI detection service, `app/api/detection.py`, `app/services/ml_service.py`,
`app/utils/file_utils.py`, `app/models/models.py`).

The Python sources are shallowly embedded: pure request-handling logic becomes
Lean functions, the database session becomes an explicit `DB` state threaded
through handlers, nondeterministic external effects (the softmax output or
random sample `fake_prob`, the wall clock, file-system success or failure,
database commit failure) become explicit parameters, and Python exceptions
become `Except` values.  Probabilities and scores are modelled as rationals
(`ℚ`); the modelled `round4` mirrors the Python call round(x, 4) up to the behaviour
on exact half ties, which no statement below depends on.
-/

namespace DeepSpear

/-! ## Configuration constants (`app/utils/file_utils.py`, env defaults) -/

/-- Python constant MAX_FILE_SIZE, from env MAX_UPLOAD_SIZE with a 10MB default. -/
def MAX_FILE_SIZE : Nat := 10485760

/-- Python constant ALLOWED_EXTENSIONS, from env with default jpg,jpeg,png,gif,bmp,webp. -/
def ALLOWED_EXTENSIONS : List String := ["jpg", "jpeg", "png", "gif", "bmp", "webp"]

/-- The allowed MIME set from the body of `validate_file`. -/
def ALLOWED_MIME_TYPES : List String :=
  ["image/jpeg", "image/jpg", "image/png", "image/gif", "image/bmp", "image/webp"]

/-- Python constant UPLOAD_FOLDER, from env with default uploads. -/
def UPLOAD_FOLDER : String := "uploads"

/-! ## String helpers mirroring Python -/

/-- Python `s.split(".")` on the character list: splits at every dot, keeping
empty segments, and returns a nonempty list of segments. -/
def splitDots : List Char → List (List Char)
  | [] => [[]]
  | c :: cs =>
    let r := splitDots cs
    if c = '.' then [] :: r
    else
      match r with
      | [] => [[c]]
      | g :: gs => (c :: g) :: gs

/-- Python `filename.split(".")[-1].lower()`: the last dot-separated segment of
the name, lowercased. -/
def fileExtension (name : String) : String :=
  String.mk (((splitDots name.toList).getLastD []).map Char.toLower)

/-- Python truthiness of an optional string: `None` and `""` are falsy. -/
def truthyStr : Option String → Bool
  | some s => s ≠ ""
  | none => false

/-! ## Upload files and validation (`app/utils/file_utils.py`) -/

/-- The attributes of a FastAPI `UploadFile` that the backend reads.  Each may
be absent (`None`) on the wire, hence `Option`. -/
structure UploadFile where
  filename : Option String
  size : Option Nat
  content_type : Option String
deriving DecidableEq, Repr

/-- The `{"valid": ..., "error": ...}` dictionary returned by `validate_file`. -/
structure ValidationResult where
  valid : Bool
  error : Option String
deriving DecidableEq, Repr

/-- Python `if file.size and file.size > MAX_FILE_SIZE`: the size check fires
only when `size` is truthy (present and nonzero) and exceeds the maximum. -/
def sizeCheckFails (s : Option Nat) : Bool :=
  match s with
  | some n => decide (n ≠ 0) && decide (n > MAX_FILE_SIZE)
  | none => false

/-- The function `validate_file` from `app/utils/file_utils.py`.  The checks run in source
order: file presence, size, filename/extension, MIME type.  The exact Python
error strings interpolate sizes with float formatting; the messages here keep
the same fixed prefixes without the interpolated figures. -/
def validate_file (file : Option UploadFile) : ValidationResult :=
  match file with
  | none => { valid := false, error := some "No file provided" }
  | some f =>
    if sizeCheckFails f.size then
      { valid := false, error := some "File size exceeds maximum allowed size" }
    else if truthyStr f.filename then
      if fileExtension (f.filename.getD "") ∉ ALLOWED_EXTENSIONS then
        { valid := false, error := some "File type not allowed" }
      else if truthyStr f.content_type
              && decide ((f.content_type.getD "") ∉ ALLOWED_MIME_TYPES) then
        { valid := false, error := some "MIME type not allowed" }
      else
        { valid := true, error := none }
    else
      { valid := false, error := some "Filename is required" }

/-- Python expression file.size or 0 in `detect_fake_content`: the stored byte size. -/
def storedFileSize (f : UploadFile) : Nat := f.size.getD 0

/-- Python expression file.content_type or "unknown" in `detect_fake_content`: the stored MIME
type; a missing or empty (falsy) declared type is stored as `"unknown"`. -/
def storedMime (f : UploadFile) : String :=
  match f.content_type with
  | some t => if t ≠ "" then t else "unknown"
  | none => "unknown"

/-! ## Staging path (`save_uploaded_file`) -/

/-- Python expression computing the secure extension in save_uploaded_file:
the lowercased last dot segment of the filename when it is truthy, else jpg. -/
def secure_extension (filename : Option String) : String :=
  match filename with
  | some name => if name ≠ "" then fileExtension name else "jpg"
  | none => "jpg"

/-- The staging path `UPLOAD_FOLDER / f"{file_id}.{original_extension}"`
computed by `save_uploaded_file` for a freshly generated `file_id`. -/
def saved_file_path (file_id : String) (filename : Option String) : String :=
  UPLOAD_FOLDER ++ "/" ++ file_id ++ "." ++ secure_extension filename

/-! ## The classification stub (`app/services/ml_service.py`) -/

/-- Python `round(x, 4)`: round to four decimal places.  Modelled with
the Mathlib `round` function (identical to the Python behaviour except on exact half ties). -/
def round4 (q : ℚ) : ℚ := (round (q * 10000) : ℤ) / 10000

/-- The `{is_fake, confidence, details}` dictionary returned by
`FakeDetectionService.predict`. -/
structure PredictResult where
  is_fake : Bool
  confidence : ℚ
  details : String
deriving DecidableEq, Repr

/-- The success path of `FakeDetectionService.predict`, after a fake
probability `fakeProb` has been obtained (from the softmax of the dummy model or
from the uniform random sample on [0.1, 0.9]): threshold it, and report as confidence the
probability of the predicted class, rounded to 4 decimals.  `details` stands
for the JSON string built by `_generate_analysis_details` from the image
metadata. -/
def predictCore (fakeProb threshold : ℚ) (details : String) : PredictResult :=
  if fakeProb > threshold then
    { is_fake := true, confidence := round4 fakeProb, details := details }
  else
    { is_fake := false, confidence := round4 (1 - fakeProb), details := details }

/-- The method `FakeDetectionService.predict`.  Here `pre` is the outcome of the
preprocessing/inference prefix of the try block: `.error e` models an exception raised there
(e.g. by `preprocess_image`), which the handler catches, returning the safe
default instead of propagating. -/
def predict (pre : Except String Unit) (fakeProb threshold : ℚ)
    (details : String) : PredictResult :=
  match pre with
  | .error e =>
    { is_fake := false, confidence := 0, details := "Error during prediction: " ++ e }
  | .ok _ => predictCore fakeProb threshold details

/-! ## The ORM model (`app/models/models.py`) -/

/-- The validates hook for confidence_score: raises ValueError unless
0.0 <= confidence <= 1.0, otherwise stores the value unchanged. -/
def validate_confidence (confidence : ℚ) : Except String ℚ :=
  if 0 ≤ confidence ∧ confidence ≤ 1 then .ok confidence
  else .error "Confidence score must be between 0.0 and 1.0"

/-- The validates hook for file_size: raises ValueError for a negative size. -/
def validate_file_size (size : ℤ) : Except String ℤ :=
  if size < 0 then .error "File size must be positive" else .ok size

/-- A row of the `detection_results` table.  `created_at` is the server-assigned
insertion timestamp, modelled as a natural clock value. -/
structure DetectionResult where
  id : Nat
  filename : String
  file_path : String
  file_size : ℤ
  mime_type : String
  is_fake : Bool
  confidence_score : ℚ
  processing_time : ℚ
  model_version : String
  created_at : Nat
  analysis_details : String
deriving DecidableEq, Repr

/-- Constructing a `DetectionResult(...)`: SQLAlchemy runs the `@validates`
hooks when the attributes are assigned, so construction fails when a validator
raises.  `id` and `created_at` are assigned by the database at insert. -/
def DetectionResult.build (filename file_path : String) (file_size : ℤ)
    (mime_type : String) (is_fake : Bool) (confidence_score processing_time : ℚ)
    (analysis_details : String) (id created_at : Nat) :
    Except String DetectionResult :=
  match validate_confidence confidence_score with
  | .error e => .error e
  | .ok c =>
    match validate_file_size file_size with
    | .error e => .error e
    | .ok s =>
      .ok { id := id, filename := filename, file_path := file_path, file_size := s,
            mime_type := mime_type, is_fake := is_fake, confidence_score := c,
            processing_time := processing_time, model_version := "v1.0",
            created_at := created_at, analysis_details := analysis_details }

/-- The database state: the `detection_results` rows in insertion order, the
auto-increment counter, and the server clock used for `created_at`. -/
structure DB where
  rows : List DetectionResult
  nextId : Nat
  now : Nat
deriving DecidableEq, Repr

/-- Well-formedness of the database: every stored id is below the
auto-increment counter (always true of a real serial primary key). -/
def DB.WF (db : DB) : Prop := ∀ r ∈ db.rows, r.id < db.nextId

/-! ## API route handlers (`app/api/detection.py`) -/

/-- The JSON responses the detection API can produce: the `POST /detect`
success payload, the full-record payload of `GET /result/{id}`, and an error
payload (`HTTPException(status_code, detail)`). -/
inductive Response where
  | success (file_id : Nat) (filename : String) (is_fake : Bool) (confidence : ℚ)
  | record (r : DetectionResult)
  | error (status : Nat) (detail : String)
deriving DecidableEq, Repr

/-- The handler `detect_fake_content` (POST /detect).  External effects are explicit
arguments: `saveRes` is the outcome of `await save_uploaded_file(file, file_id)`
(`.error` models the raised exception), `pre`/`fakeProb`/`details` feed the
classifier stub, `processing_time` is the measured wall-clock interval, and
`dbError` models a failure of `db.add`/`db.commit`.  The result is the HTTP
response, the new database state, and the list of file paths handed to
`background_tasks.add_task(cleanup_file, ·)`.  A save failure schedules no
cleanup (in the source, `file_path` is then not in `locals()`), while the
saving function itself unlinks its partial write.  Exceptions after a
successful save (record validation, database) schedule cleanup of the staged
file and surface as 500. -/
def detect_fake_content (file : UploadFile) (saveRes : Except String String)
    (pre : Except String Unit) (fakeProb threshold : ℚ) (details : String)
    (processing_time : ℚ) (dbError : Option String) (db : DB) :
    Response × DB × List String :=
  let v := validate_file (some file)
  if v.valid = false then
    (.error 400 (v.error.getD ""), db, [])
  else
    match saveRes with
    | .error e => (.error 500 ("Error processing image: " ++ e), db, [])
    | .ok file_path =>
      let pr := predict pre fakeProb threshold details
      match DetectionResult.build (file.filename.getD "") file_path
          (storedFileSize file : ℤ) (storedMime file) pr.is_fake pr.confidence
          processing_time pr.details db.nextId db.now with
      | .error e => (.error 500 ("Error processing image: " ++ e), db, [file_path])
      | .ok r =>
        match dbError with
        | some e => (.error 500 ("Error processing image: " ++ e), db, [file_path])
        | none =>
          let db' : DB := { rows := db.rows ++ [r], nextId := db.nextId + 1,
                            now := db.now + 1 }
          (.success r.id (file.filename.getD "") pr.is_fake pr.confidence, db', [file_path])

/-- The handler `get_detection_result` (GET /result/:id): a filtered query
(`.filter(DetectionResult.id == result_id).first()`), 404 when absent.  The
handler only reads; the returned state is the input state. -/
def get_detection_result (result_id : Nat) (db : DB) : Response × DB :=
  match db.rows.find? (fun r => r.id == result_id) with
  | none => (.error 404 "Detection result not found", db)
  | some r => (.record r, db)

/-! ## History pagination (`get_detection_history`) -/

/-- The descending-creation-time ordering used by
`.order_by(DetectionResult.created_at.desc())`. -/
def CreatedDesc (a b : DetectionResult) : Prop := b.created_at ≤ a.created_at

/-- Insert one row into a list already sorted by `created_at` descending. -/
def insertByCreated (r : DetectionResult) : List DetectionResult → List DetectionResult
  | [] => [r]
  | x :: xs =>
    if r.created_at ≤ x.created_at then x :: insertByCreated r xs
    else r :: x :: xs

/-- The `ORDER BY created_at DESC` clause as a sorting function on the rows. -/
def sortByCreatedDesc : List DetectionResult → List DetectionResult
  | [] => []
  | x :: xs => insertByCreated x (sortByCreatedDesc xs)

/-- The `GET /history` JSON payload. -/
structure HistoryResponse where
  results : List DetectionResult
  total : Nat
  limit : Nat
  offset : Nat
  has_next : Bool
deriving DecidableEq, Repr

/-- The handler `get_detection_history` (GET /history): order by
`created_at` descending, apply `offset` then `limit`, and return the page with
the full-table count, the echoed parameters and `has_next`.  Read-only. -/
def get_detection_history (limit offset : Nat) (db : DB) : HistoryResponse × DB :=
  let sorted := sortByCreatedDesc db.rows
  let page := (sorted.drop offset).take limit
  ({ results := page, total := db.rows.length, limit := limit, offset := offset,
     has_next := decide (offset + limit < db.rows.length) }, db)

/-! ## Best-effort cleanup (`cleanup_file`) -/

/-- The aspects of the file system that `cleanup_file` observes for its path
argument: whether the path exists, whether it is a regular file, whether its
resolved form lies inside the resolved upload directory, and whether the
`unlink` call raises (e.g. permission denied). -/
structure FsFile where
  fsExists : Bool
  isFile : Bool
  insideUploadDir : Bool
  unlinkRaises : Bool
deriving DecidableEq, Repr

/-- The function `cleanup_file`: delete the staged file, returning `True` on success and
`False` otherwise.  Every failure mode — path missing, not a regular file,
resolved path outside the upload directory, or an exception while unlinking —
ends in `return False`; the function is total and never propagates an error. -/
def cleanup_file (f : FsFile) : Bool :=
  if f.fsExists && f.isFile then
    if f.insideUploadDir then
      if f.unlinkRaises then false
      else true
    else false
  else false

/-! ## Concrete fixtures used by witnesses and counterexamples -/

/-- The spec's example scenario: a small JPEG named `test.jpg`. -/
def fileW : UploadFile :=
  { filename := some "test.jpg", size := some 100, content_type := some "image/jpeg" }

/-- An upload with a disallowed `.txt` extension. -/
def fileTxt : UploadFile :=
  { filename := some "evil.txt", size := some 100, content_type := some "text/plain" }

/-- An upload with an allowed extension but no declared size or content type. -/
def fileNoMeta : UploadFile :=
  { filename := some "a.png", size := none, content_type := none }

/-- An empty database whose serial counter starts at 1, as in PostgreSQL. -/
def dbW : DB := { rows := [], nextId := 1, now := 0 }

/-- The row stored by the fixture request below. -/
def rowW : DetectionResult :=
  { id := 1, filename := "test.jpg", file_path := "uploads/u.jpg", file_size := 100,
    mime_type := "image/jpeg", is_fake := true, confidence_score := 3 / 4,
    processing_time := 0, model_version := "v1.0", created_at := 0,
    analysis_details := "d" }

/-- The database state after the fixture request. -/
def dbW' : DB := { rows := [rowW], nextId := 2, now := 1 }

/-! ## Helper lemmas -/

theorem validate_fileW_eval : validate_file (some fileW) = { valid := true, error := none } := by
  decide

theorem storedFileSizeW_eval : (storedFileSize fileW : ℤ) = 100 := by decide

theorem storedMimeW_eval : storedMime fileW = "image/jpeg" := by decide

theorem filenameW_eval : fileW.filename.getD "" = "test.jpg" := by decide

theorem predictW_eval :
    predict (.ok ()) (3 / 4) (1 / 2) "d" =
      { is_fake := true, confidence := 3 / 4, details := "d" } := by
  norm_num [predict, predictCore, round4, round_eq]

theorem detectW_eval :
    detect_fake_content fileW (.ok "uploads/u.jpg") (.ok ()) (3 / 4) (1 / 2) "d" 0 none dbW =
      (.success 1 "test.jpg" true (3 / 4), dbW', ["uploads/u.jpg"]) := by
  norm_num [detect_fake_content, validate_fileW_eval, predictW_eval,
    storedFileSizeW_eval, storedMimeW_eval, filenameW_eval,
    DetectionResult.build, validate_confidence, validate_file_size,
    dbW, dbW', rowW]

theorem round_mono_rat {x y : ℚ} (h : x ≤ y) : round x ≤ round y := by
  rw [round_eq, round_eq]
  exact Int.floor_le_floor (by linarith)

theorem round_int_le_of_le {x : ℚ} {n : ℤ} (h : (n : ℚ) ≤ x) : n ≤ round x := by
  have := round_mono_rat h
  rwa [round_intCast] at this

theorem round_le_int_of_le {x : ℚ} {n : ℤ} (h : x ≤ (n : ℚ)) : round x ≤ n := by
  have := round_mono_rat h
  rwa [round_intCast] at this

theorem round4_ge_half {x : ℚ} (h : 1 / 2 ≤ x) : 1 / 2 ≤ round4 x := by
  have h1 : ((5000 : ℤ) : ℚ) ≤ x * 10000 := by push_cast; linarith
  have h2 := round_int_le_of_le h1
  have h3 : (5000 : ℚ) ≤ (round (x * 10000) : ℚ) := by exact_mod_cast h2
  unfold round4
  linarith

theorem round4_nonneg {x : ℚ} (h : 0 ≤ x) : 0 ≤ round4 x := by
  have h1 : ((0 : ℤ) : ℚ) ≤ x * 10000 := by push_cast; linarith
  have h2 := round_int_le_of_le h1
  have h3 : (0 : ℚ) ≤ (round (x * 10000) : ℚ) := by exact_mod_cast h2
  unfold round4
  linarith

theorem round4_le_one {x : ℚ} (h : x ≤ 1) : round4 x ≤ 1 := by
  have h1 : x * 10000 ≤ ((10000 : ℤ) : ℚ) := by push_cast; linarith
  have h2 := round_le_int_of_le h1
  have h3 : (round (x * 10000) : ℚ) ≤ 10000 := by exact_mod_cast h2
  unfold round4
  linarith

theorem length_insertByCreated (r : DetectionResult) (l : List DetectionResult) :
    (insertByCreated r l).length = l.length + 1 := by
  induction l with
  | nil => rfl
  | cons x xs ih =>
    unfold insertByCreated
    split
    · simp [ih]
    · simp

theorem length_sortByCreatedDesc (l : List DetectionResult) :
    (sortByCreatedDesc l).length = l.length := by
  induction l with
  | nil => rfl
  | cons x xs ih => simp [sortByCreatedDesc, length_insertByCreated, ih]

theorem mem_insertByCreated {y r : DetectionResult} {l : List DetectionResult} :
    y ∈ insertByCreated r l ↔ y = r ∨ y ∈ l := by
  induction l with
  | nil => simp [insertByCreated]
  | cons x xs ih =>
    unfold insertByCreated
    split
    · simp only [List.mem_cons, ih]
      tauto
    · simp only [List.mem_cons]

theorem pairwise_insertByCreated {r : DetectionResult} {l : List DetectionResult}
    (h : l.Pairwise CreatedDesc) : (insertByCreated r l).Pairwise CreatedDesc := by
  induction l with
  | nil => simp [insertByCreated, CreatedDesc]
  | cons x xs ih =>
    rw [List.pairwise_cons] at h
    unfold insertByCreated
    split
    · rename_i hle
      rw [List.pairwise_cons]
      refine ⟨fun y hy => ?_, ih h.2⟩
      rcases mem_insertByCreated.mp hy with rfl | hy
      · exact hle
      · exact h.1 y hy
    · rename_i hgt
      push_neg at hgt
      rw [List.pairwise_cons]
      refine ⟨fun y hy => ?_, List.pairwise_cons.mpr h⟩
      rcases List.mem_cons.mp hy with rfl | hy
      · exact le_of_lt hgt
      · exact le_trans (h.1 y hy) (le_of_lt hgt)

theorem pairwise_sortByCreatedDesc (l : List DetectionResult) :
    (sortByCreatedDesc l).Pairwise CreatedDesc := by
  induction l with
  | nil => simp [sortByCreatedDesc]
  | cons x xs ih => exact pairwise_insertByCreated ih

theorem validate_confidence_ok_inv {c c' : ℚ} (h : validate_confidence c = .ok c') :
    c' = c ∧ 0 ≤ c ∧ c ≤ 1 := by
  unfold validate_confidence at h
  split at h
  · rename_i hc
    cases h
    exact ⟨rfl, hc.1, hc.2⟩
  · cases h

theorem validate_file_size_ok_inv {s s' : ℤ} (h : validate_file_size s = .ok s') :
    s' = s := by
  unfold validate_file_size at h
  split at h
  · cases h
  · cases h
    rfl

theorem build_ok_inv {fn fp : String} {fs : ℤ} {mt : String} {isf : Bool}
    {c pt : ℚ} {ad : String} {idv ca : Nat} {r : DetectionResult}
    (h : DetectionResult.build fn fp fs mt isf c pt ad idv ca = .ok r) :
    r.id = idv ∧ r.confidence_score = c ∧ 0 ≤ c ∧ c ≤ 1 ∧ r.created_at = ca ∧
      r.mime_type = mt ∧ r.file_size = fs ∧ r.filename = fn ∧ r.file_path = fp := by
  unfold DetectionResult.build at h
  cases hv : validate_confidence c with
  | error e => rw [hv] at h; cases h
  | ok c' =>
    rw [hv] at h
    obtain ⟨rfl, h0, h1⟩ := validate_confidence_ok_inv hv
    cases hs : validate_file_size fs with
    | error e => rw [hs] at h; cases h
    | ok s =>
      rw [hs] at h
      have hss := validate_file_size_ok_inv hs
      cases h
      exact ⟨rfl, rfl, h0, h1, rfl, rfl, hss, rfl, rfl⟩

theorem detect_success_inv {file : UploadFile} {saveRes : Except String String}
    {pre : Except String Unit} {p t : ℚ} {d : String} {pt : ℚ}
    {dbe : Option String} {db : DB} {fid : Nat} {fn : String} {isf : Bool}
    {conf : ℚ} {db' : DB} {tasks : List String}
    (h : detect_fake_content file saveRes pre p t d pt dbe db =
          (.success fid fn isf conf, db', tasks)) :
    ∃ path r,
      saveRes = .ok path ∧
      DetectionResult.build (file.filename.getD "") path (storedFileSize file : ℤ)
          (storedMime file) (predict pre p t d).is_fake (predict pre p t d).confidence
          pt (predict pre p t d).details db.nextId db.now = .ok r ∧
      dbe = none ∧ db'.rows = db.rows ++ [r] ∧ db'.nextId = db.nextId + 1 ∧
      fid = r.id ∧ conf = (predict pre p t d).confidence ∧ tasks = [path] := by
  by_cases hv : (validate_file (some file)).valid = false
  · simp only [detect_fake_content, hv] at h
    simp at h
  · rw [Bool.not_eq_false] at hv
    cases saveRes with
    | error e =>
      simp only [detect_fake_content, hv] at h
      simp at h
    | ok path =>
      cases hbuild : DetectionResult.build (file.filename.getD "") path
          (storedFileSize file : ℤ) (storedMime file) (predict pre p t d).is_fake
          (predict pre p t d).confidence pt (predict pre p t d).details
          db.nextId db.now with
      | error e =>
        simp only [detect_fake_content, hv, hbuild] at h
        simp at h
      | ok r =>
        cases dbe with
        | some e =>
          simp only [detect_fake_content, hv, hbuild] at h
          simp at h
        | none =>
          simp only [detect_fake_content, hv, hbuild] at h
          injection h with h1 h23
          injection h23 with h2 h3
          injection h1 with hid hfn hisf hconf
          exact ⟨path, r, rfl, hbuild, rfl, by rw [← h2], by rw [← h2],
                 hid.symm, hconf.symm, h3.symm⟩

theorem detect_rows_cases {file : UploadFile} {saveRes : Except String String}
    {pre : Except String Unit} {p t : ℚ} {d : String} {pt : ℚ}
    {dbe : Option String} {db : DB} {resp : Response} {db' : DB}
    {tasks : List String}
    (h : detect_fake_content file saveRes pre p t d pt dbe db = (resp, db', tasks)) :
    db'.rows = db.rows ∨
      ∃ r, db'.rows = db.rows ++ [r] ∧ 0 ≤ r.confidence_score ∧
        r.confidence_score ≤ 1 := by
  by_cases hv : (validate_file (some file)).valid = false
  · simp only [detect_fake_content, hv] at h
    injection h with h1 h23
    injection h23 with h2 h3
    left; rw [← h2]
  · rw [Bool.not_eq_false] at hv
    cases saveRes with
    | error e =>
      simp only [detect_fake_content, hv] at h
      injection h with h1 h23
      injection h23 with h2 h3
      left; rw [← h2]
    | ok path =>
      cases hbuild : DetectionResult.build (file.filename.getD "") path
          (storedFileSize file : ℤ) (storedMime file) (predict pre p t d).is_fake
          (predict pre p t d).confidence pt (predict pre p t d).details
          db.nextId db.now with
      | error e =>
        simp only [detect_fake_content, hv, hbuild] at h
        injection h with h1 h23
        injection h23 with h2 h3
        left; rw [← h2]
      | ok r =>
        cases dbe with
        | some e =>
          simp only [detect_fake_content, hv, hbuild] at h
          injection h with h1 h23
          injection h23 with h2 h3
          left; rw [← h2]
        | none =>
          simp only [detect_fake_content, hv, hbuild] at h
          injection h with h1 h23
          injection h23 with h2 h3
          right
          obtain ⟨-, hc, h0, h1', -⟩ := build_ok_inv hbuild
          exact ⟨r, by rw [← h2], hc ▸ h0, hc ▸ h1'⟩

theorem find?_fresh {rows : List DetectionResult} {r : DetectionResult} {n : Nat}
    (hwf : ∀ x ∈ rows, x.id < n) (hr : r.id = n) :
    (rows ++ [r]).find? (fun x => x.id == n) = some r := by
  rw [List.find?_append]
  have h1 : rows.find? (fun x => x.id == n) = none :=
    List.find?_eq_none.mpr fun x hx => by
      simp only [beq_iff_eq]
      exact Nat.ne_of_lt (hwf x hx)
  rw [h1]
  simp [List.find?_cons, hr]

/-! ## Claim theorems -/

/-- Claim C1, counterexample: the claim says the reported confidence equals the
estimated fake probability of the stub for both outcomes, but for a fake probability
of 1/5 (threshold 1/2) `predict` succeeds with `is_fake = false` and reports
confidence 4/5, not 1/5. -/
theorem c1_confidence_not_fake_prob_counterexample :
    (predict (.ok ()) (1 / 5) (1 / 2) "d").is_fake = false ∧
      (predict (.ok ()) (1 / 5) (1 / 2) "d").confidence ≠ 1 / 5 := by
  norm_num [predict, predictCore, round4, round_eq]

/-- Claim C1, amended: for every successful (non-error) prediction, the
reported confidence is the estimated probability of the *predicted class*,
rounded to four decimals — the fake probability when `is_fake`, and one minus
it otherwise. -/
theorem c1_confidence_is_predicted_class_prob :
    ∀ (p t : ℚ) (d : String),
      ((predict (.ok ()) p t d).is_fake = true →
        (predict (.ok ()) p t d).confidence = round4 p) ∧
      ((predict (.ok ()) p t d).is_fake = false →
        (predict (.ok ()) p t d).confidence = round4 (1 - p)) := by
  intro p t d
  simp only [predict, predictCore]
  split
  · exact ⟨fun _ => rfl, fun hf => by simp at hf⟩
  · exact ⟨fun hf => by simp at hf, fun _ => rfl⟩

/-- Claim C1 witness: the amended theorem applied at fake probability 3/4. -/
theorem c1_confidence_is_predicted_class_prob_witness :
    (predict (.ok ()) (3 / 4) (1 / 2) "d").confidence = round4 (3 / 4) :=
  (c1_confidence_is_predicted_class_prob (3 / 4) (1 / 2) "d").1
    (by norm_num [predict, predictCore])

/-- Claim C3: when any exception is raised inside the `try` block of
`FakeDetectionService.predict` (preprocessing or inference), `predict` returns
the safe default `{is_fake: false, confidence: 0.0, details: <error message>}`;
being a total function into `PredictResult`, it propagates no exception. -/
theorem c3_predict_safe_default :
    ∀ (e : String) (p t : ℚ) (d : String),
      predict (.error e) p t d =
        { is_fake := false, confidence := 0,
          details := "Error during prediction: " ++ e } := by
  intro e p t d
  rfl

/-- Claim C7, counterexample: the staging path is not independent of the
client-supplied filename — two uploads with the same generated `file_id` that
differ only in the filename (`a.jpg` vs `a.png`) are saved under different
paths, because `save_uploaded_file` reuses the extension of the filename. -/
theorem c7_path_depends_on_filename_counterexample :
    ¬ ("a.jpg" = "a.png") ∧
      ¬ (saved_file_path "u" (some "a.jpg") = saved_file_path "u" (some "a.png")) := by
  decide

/-- Claim C7, amended: the staging path is determined by the freshly generated
`file_id` together with only the (lowercased, last-dot) extension of the client
filename: uploads whose filenames share an extension are saved under the same
path for the same `file_id`, whatever the rest of the filename is. -/
theorem c7_path_filename_only_through_extension :
    ∀ (fid n₁ n₂ : String), n₁ ≠ "" → n₂ ≠ "" →
      fileExtension n₁ = fileExtension n₂ →
      saved_file_path fid (some n₁) = saved_file_path fid (some n₂) := by
  intro fid n₁ n₂ h1 h2 he
  simp [saved_file_path, secure_extension, h1, h2, he]

/-- Claim C7 witness: the amended theorem applied to two different `.jpg`
filenames under one `file_id`. -/
theorem c7_path_filename_only_through_extension_witness :
    saved_file_path "u" (some "a.jpg") = saved_file_path "u" (some "b.jpg") :=
  c7_path_filename_only_through_extension "u" "a.jpg" "b.jpg"
    (by decide) (by decide) (by decide)

/-- Claim C9: with the default confidence threshold 1/2, every non-error
prediction reports a confidence of at least 1/2, since the reported value is
the probability of the predicted class. -/
theorem c9_confidence_at_least_half :
    ∀ (p : ℚ) (d : String), 1 / 2 ≤ (predict (.ok ()) p (1 / 2) d).confidence := by
  intro p d
  simp only [predict, predictCore]
  split
  · rename_i hgt
    exact round4_ge_half (le_of_lt hgt)
  · rename_i hle
    push_neg at hle
    exact round4_ge_half (by linarith)

/-- Claim C2: the `[0, 1]` bound on `confidence_score` is enforced at write
time — `validate_confidence` raises (errors) on any out-of-range value instead
of storing it — and consequently every `POST /detect` request preserves the
invariant that all stored rows have `confidence_score` in `[0, 1]`. -/
theorem c2_confidence_write_invariant :
    (∀ c : ℚ, ¬(0 ≤ c ∧ c ≤ 1) →
      validate_confidence c =
        .error "Confidence score must be between 0.0 and 1.0") ∧
    (∀ (file : UploadFile) (saveRes : Except String String)
        (pre : Except String Unit) (p t : ℚ) (d : String) (pt : ℚ)
        (dbe : Option String) (db : DB) (resp : Response) (db' : DB)
        (tasks : List String),
      detect_fake_content file saveRes pre p t d pt dbe db = (resp, db', tasks) →
      (∀ r ∈ db.rows, 0 ≤ r.confidence_score ∧ r.confidence_score ≤ 1) →
      (∀ r ∈ db'.rows, 0 ≤ r.confidence_score ∧ r.confidence_score ≤ 1)) := by
  constructor
  · intro c hc
    unfold validate_confidence
    rw [if_neg hc]
  · intro file saveRes pre p t d pt dbe db resp db' tasks h hinv r hr
    rcases detect_rows_cases h with hsame | ⟨r', hrows, h0, h1⟩
    · exact hinv r (hsame ▸ hr)
    · rw [hrows] at hr
      rcases List.mem_append.mp hr with hr | hr
      · exact hinv r hr
      · rw [List.mem_singleton.mp hr]
        exact ⟨h0, h1⟩

/-- Claim C2 witness: the validator rejects 2, and the database state after
the fixture request satisfies the invariant. -/
theorem c2_confidence_write_invariant_witness :
    validate_confidence 2 =
        .error "Confidence score must be between 0.0 and 1.0" ∧
      (∀ r ∈ dbW'.rows, 0 ≤ r.confidence_score ∧ r.confidence_score ≤ 1) :=
  ⟨c2_confidence_write_invariant.1 2 (by norm_num),
   c2_confidence_write_invariant.2 fileW (.ok "uploads/u.jpg") (.ok ()) (3 / 4)
     (1 / 2) "d" 0 none dbW (.success 1 "test.jpg" true (3 / 4)) dbW'
     ["uploads/u.jpg"] detectW_eval (by simp [dbW])⟩

/-- Claim C4: an upload whose filename has an extension outside the allowed
set fails validation: `POST /detect` answers 400 with a nonempty
human-readable detail, leaves the database untouched, and schedules no
cleanup task (no file was saved) — whatever the other request inputs are. -/
theorem c4_disallowed_extension_rejected :
    ∀ (file : UploadFile) (saveRes : Except String String)
      (pre : Except String Unit) (p t : ℚ) (d : String) (pt : ℚ)
      (dbe : Option String) (db : DB),
      truthyStr file.filename = true →
      fileExtension (file.filename.getD "") ∉ ALLOWED_EXTENSIONS →
      ∃ msg, msg ≠ "" ∧
        detect_fake_content file saveRes pre p t d pt dbe db =
          (.error 400 msg, db, []) := by
  intro file saveRes pre p t d pt dbe db hname hext
  have hval : ∃ msg, msg ≠ "" ∧
      validate_file (some file) = { valid := false, error := some msg } := by
    by_cases hs : sizeCheckFails file.size = true
    · exact ⟨"File size exceeds maximum allowed size", by decide,
        by simp [validate_file, hs]⟩
    · exact ⟨"File type not allowed", by decide,
        by simp [validate_file, hs, hname, hext]⟩
  obtain ⟨msg, hmsg, hv⟩ := hval
  refine ⟨msg, hmsg, ?_⟩
  simp [detect_fake_content, hv]

/-- Claim C4 witness: a `.txt` upload against the empty database. -/
theorem c4_disallowed_extension_rejected_witness :
    ∃ msg, msg ≠ "" ∧
      detect_fake_content fileTxt (.ok "uploads/u.txt") (.ok ()) (3 / 4) (1 / 2)
          "d" 0 none dbW =
        (.error 400 msg, dbW, []) :=
  c4_disallowed_extension_rejected fileTxt (.ok "uploads/u.txt") (.ok ()) (3 / 4)
    (1 / 2) "d" 0 none dbW (by decide) (by decide)

/-- Claim C5: round-trip identity — after a successful `POST /detect` on a
well-formed database, `GET /result/{file_id}` with the returned `file_id`
finds a record whose `id` equals that `file_id`; and the read handler never
mutates the database state, so repeated reads return the same response. -/
theorem c5_roundtrip_identity :
    ∀ (file : UploadFile) (saveRes : Except String String)
      (pre : Except String Unit) (p t : ℚ) (d : String) (pt : ℚ)
      (dbe : Option String) (db : DB) (fid : Nat) (fn : String) (isf : Bool)
      (conf : ℚ) (db' : DB) (tasks : List String),
      db.WF →
      detect_fake_content file saveRes pre p t d pt dbe db =
        (.success fid fn isf conf, db', tasks) →
      (∃ r, get_detection_result fid db' = (.record r, db') ∧ r.id = fid) ∧
      (∀ (i : Nat) (s : DB), (get_detection_result i s).2 = s) := by
  intro file saveRes pre p t d pt dbe db fid fn isf conf db' tasks hwf h
  obtain ⟨path, r, hsave, hbuild, hdbe, hrows, hnext, hfid, hconf, htasks⟩ :=
    detect_success_inv h
  obtain ⟨hid, -⟩ := build_ok_inv hbuild
  constructor
  · refine ⟨r, ?_, hfid.symm⟩
    unfold get_detection_result
    rw [hrows, hfid, hid, find?_fresh hwf hid]
  · intro i s
    cases hfind : s.rows.find? (fun x => x.id == i) with
    | none => simp [get_detection_result, hfind]
    | some x => simp [get_detection_result, hfind]

/-- Claim C5 witness: the fixture request against the empty database, then a
read of the returned id 1. -/
theorem c5_roundtrip_identity_witness :
    (∃ r, get_detection_result 1 dbW' = (.record r, dbW') ∧ r.id = 1) ∧
      (∀ (i : Nat) (s : DB), (get_detection_result i s).2 = s) :=
  c5_roundtrip_identity fileW (.ok "uploads/u.jpg") (.ok ()) (3 / 4) (1 / 2) "d"
    0 none dbW 1 "test.jpg" true (3 / 4) dbW' ["uploads/u.jpg"]
    (by simp [DB.WF, dbW]) detectW_eval

/-- Claim C8: whenever validation passes and the staging file is written
(successfully saved under `path`), `POST /detect` schedules a cleanup task for
that path — on database/record failure as well as on success; and
`cleanup_file` is total, returning `false` on every failure mode (missing
path, not a regular file, outside the upload directory, unlink exception)
instead of raising. -/
theorem c8_cleanup_scheduled_and_total :
    (∀ (file : UploadFile) (path : String) (pre : Except String Unit)
        (p t : ℚ) (d : String) (pt : ℚ) (dbe : Option String) (db : DB),
      (validate_file (some file)).valid = true →
      path ∈ (detect_fake_content file (.ok path) pre p t d pt dbe db).2.2) ∧
    (∀ f : FsFile,
      f.fsExists = false ∨ f.isFile = false ∨ f.insideUploadDir = false ∨
          f.unlinkRaises = true →
        cleanup_file f = false) := by
  constructor
  · intro file path pre p t d pt dbe db hv
    cases hbuild : DetectionResult.build (file.filename.getD "") path
        (storedFileSize file : ℤ) (storedMime file) (predict pre p t d).is_fake
        (predict pre p t d).confidence pt (predict pre p t d).details
        db.nextId db.now with
    | error e => simp [detect_fake_content, hv, hbuild]
    | ok r =>
      cases dbe with
      | some e => simp [detect_fake_content, hv, hbuild]
      | none => simp [detect_fake_content, hv, hbuild]
  · intro f hf
    rcases hf with h | h | h | h <;> simp [cleanup_file, h]

/-- Claim C8 witness: the fixture request schedules cleanup of its staged
file, and `cleanup_file` returns `false` on an already-deleted path. -/
theorem c8_cleanup_scheduled_and_total_witness :
    "uploads/u.jpg" ∈
        (detect_fake_content fileW (.ok "uploads/u.jpg") (.ok ()) (3 / 4) (1 / 2)
            "d" 0 none dbW).2.2 ∧
      cleanup_file
          { fsExists := false, isFile := true, insideUploadDir := true,
            unlinkRaises := false } =
        false :=
  ⟨c8_cleanup_scheduled_and_total.1 fileW "uploads/u.jpg" (.ok ()) (3 / 4)
     (1 / 2) "d" 0 none dbW (by decide),
   c8_cleanup_scheduled_and_total.2 _ (Or.inl rfl)⟩

/-- Claim C6: for every database state and every `limit` and `offset`,
`GET /history` returns at most `limit` results — the page of the rows sorted
by `created_at` descending starting at `offset` — together with `total` equal
to the full table count, the echoed `limit` and `offset`, and
`has_next = (offset + limit < total)`; in particular with `limit = N` rows
stored and `offset = 0` it returns exactly `N` entries. -/
theorem c6_history_pagination :
    ∀ (limit offset : Nat) (db : DB),
      (get_detection_history limit offset db).1.results.length ≤ limit ∧
      (get_detection_history limit offset db).1.results =
        ((sortByCreatedDesc db.rows).drop offset).take limit ∧
      (get_detection_history limit offset db).1.results.Pairwise CreatedDesc ∧
      (get_detection_history limit offset db).1.total = db.rows.length ∧
      (get_detection_history limit offset db).1.limit = limit ∧
      (get_detection_history limit offset db).1.offset = offset ∧
      ((get_detection_history limit offset db).1.has_next = true ↔
        offset + limit < db.rows.length) ∧
      (db.rows.length = limit → offset = 0 →
        (get_detection_history limit offset db).1.results.length = limit) := by
  intro limit offset db
  refine ⟨?_, rfl, ?_, rfl, rfl, rfl, ?_, ?_⟩
  · simp only [get_detection_history]
    rw [List.length_take]
    exact min_le_left _ _
  · exact List.Pairwise.sublist
      ((List.take_sublist _ _).trans (List.drop_sublist _ _))
      (pairwise_sortByCreatedDesc db.rows)
  · simp [get_detection_history]
  · intro hN h0
    subst h0
    simp only [get_detection_history, List.drop_zero]
    rw [List.length_take, length_sortByCreatedDesc, hN]
    exact Nat.min_self _

/-- Claim C6 witness: one stored row, `limit = 1`, `offset = 0`. -/
theorem c6_history_pagination_witness :
    (get_detection_history 1 0 dbW').1.results.length = 1 :=
  (c6_history_pagination 1 0 dbW').2.2.2.2.2.2.2 (by simp [dbW']) rfl

theorem sizeCheckFails_iff {s : Option Nat} :
    sizeCheckFails s = true ↔ ∃ n, s = some n ∧ MAX_FILE_SIZE < n := by
  cases s with
  | none => simp [sizeCheckFails]
  | some n =>
    simp only [sizeCheckFails, Bool.and_eq_true, decide_eq_true_eq,
      Option.some.injEq]
    constructor
    · rintro ⟨hnz, hlt⟩
      exact ⟨n, rfl, hlt⟩
    · rintro ⟨m, hm, hlt⟩
      subst hm
      have hM : MAX_FILE_SIZE = 10485760 := rfl
      exact ⟨by omega, hlt⟩

theorem truthyStr_none : truthyStr none = false := rfl

theorem mimeCheckFails_iff {ct : Option String} :
    (truthyStr ct = true ∧ (ct.getD "") ∉ ALLOWED_MIME_TYPES) ↔
      ∃ t, ct = some t ∧ t ≠ "" ∧ t ∉ ALLOWED_MIME_TYPES := by
  cases ct with
  | none => simp [truthyStr]
  | some t => simp [truthyStr]

/-- Claim C10: `validate_file` applies the size and MIME checks only when the
attribute is present (and truthy): it rejects exactly when the file is absent,
a present size exceeds the maximum, the filename is missing (or empty), the
extension is disallowed, or a present nonempty content type is disallowed.  A
missing size is stored as `file_size = 0` and a missing content type as
`mime_type = "unknown"`, and an upload carrying neither attribute but an
allowed extension passes validation. -/
theorem c10_validate_file_conditional_checks :
    (∀ file : Option UploadFile,
      ((validate_file file).valid = false ↔
        file = none ∨
          ∃ f, file = some f ∧
            ((∃ n, f.size = some n ∧ MAX_FILE_SIZE < n) ∨
              truthyStr f.filename = false ∨
              fileExtension (f.filename.getD "") ∉ ALLOWED_EXTENSIONS ∨
              ∃ t, f.content_type = some t ∧ t ≠ "" ∧ t ∉ ALLOWED_MIME_TYPES))) ∧
    (∀ f : UploadFile, f.size = none → storedFileSize f = 0) ∧
    (∀ f : UploadFile, f.content_type = none → storedMime f = "unknown") ∧
    (∀ f : UploadFile, f.size = none → f.content_type = none →
      truthyStr f.filename = true →
      fileExtension (f.filename.getD "") ∈ ALLOWED_EXTENSIONS →
      (validate_file (some f)).valid = true) := by
  refine ⟨?_, ?_, ?_, ?_⟩
  · intro file
    cases file with
    | none => simp [validate_file]
    | some f =>
      constructor
      · intro h
        right
        refine ⟨f, rfl, ?_⟩
        by_cases hs : sizeCheckFails f.size = true
        · exact Or.inl (sizeCheckFails_iff.mp hs)
        · by_cases hn : truthyStr f.filename = true
          · by_cases he : fileExtension (f.filename.getD "") ∈ ALLOWED_EXTENSIONS
            · by_cases hm : truthyStr f.content_type = true ∧
                  (f.content_type.getD "") ∉ ALLOWED_MIME_TYPES
              · exact Or.inr (Or.inr (Or.inr (mimeCheckFails_iff.mp hm)))
              · exfalso
                simp [validate_file, hs, hn, he, hm] at h
            · exact Or.inr (Or.inr (Or.inl he))
          · have hn' : truthyStr f.filename = false := by
              revert hn; cases truthyStr f.filename <;> simp
            exact Or.inr (Or.inl hn')
      · rintro (hnone | ⟨g, hg, hcond⟩)
        · simp at hnone
        · injection hg with hg'
          subst hg'
          rcases hcond with ⟨n, hsz, hlt⟩ | hn | he | ⟨t, hct, hne, hnm⟩
          · have hs : sizeCheckFails f.size = true :=
              sizeCheckFails_iff.mpr ⟨n, hsz, hlt⟩
            simp [validate_file, hs]
          · by_cases hs : sizeCheckFails f.size = true
            · simp [validate_file, hs]
            · simp [validate_file, hs, hn]
          · by_cases hs : sizeCheckFails f.size = true
            · simp [validate_file, hs]
            · by_cases hn : truthyStr f.filename = true
              · simp [validate_file, hs, hn, he]
              · simp [validate_file, hs, hn]
          · have hm : truthyStr f.content_type = true ∧
                (f.content_type.getD "") ∉ ALLOWED_MIME_TYPES :=
              mimeCheckFails_iff.mpr ⟨t, hct, hne, hnm⟩
            by_cases hs : sizeCheckFails f.size = true
            · simp [validate_file, hs]
            · by_cases hn : truthyStr f.filename = true
              · by_cases he : fileExtension (f.filename.getD "") ∈ ALLOWED_EXTENSIONS
                · simp [validate_file, hs, hn, he, hm]
                · simp [validate_file, hs, hn, he]
              · simp [validate_file, hs, hn]
  · intro f h
    simp [storedFileSize, h]
  · intro f h
    simp [storedMime, h]
  · intro f hs hc hn he
    have hsf : ¬ sizeCheckFails f.size = true := by simp [sizeCheckFails, hs]
    simp [validate_file, hsf, hn, he, hc, truthyStr_none]

/-- Claim C10 witness: the upload with an allowed extension but no declared
size or content type passes validation and is stored with `file_size = 0` and
`mime_type = "unknown"`. -/
theorem c10_validate_file_conditional_checks_witness :
    storedFileSize fileNoMeta = 0 ∧ storedMime fileNoMeta = "unknown" ∧
      (validate_file (some fileNoMeta)).valid = true :=
  ⟨c10_validate_file_conditional_checks.2.1 fileNoMeta rfl,
   c10_validate_file_conditional_checks.2.2.1 fileNoMeta rfl,
   c10_validate_file_conditional_checks.2.2.2 fileNoMeta rfl rfl (by decide) (by decide)⟩

end DeepSpear
